import Mathlib

/-!
Verification of the worker-side scan pipeline of pkgsite-metrics.

The definitions below are shallow embeddings of the Go code under
src/internal/worker/scan.go, src/internal/worker/vulncheck_scan.go and
src/unnamed/part_000.  Pure helpers become Lean functions; the few pieces of
repository code that are not under src/ (marked in their doc comments) are
modelled from the specification.  Machine integers are Nat with explicit
reduction modulo 2 ^ 64 where Go uint64 arithmetic can wrap.
-/

/-- `leadsWith pat s` holds when the character list `pat` is an initial
segment of `s`.  Building block for Go strings.Contains. -/
def leadsWith : List Char → List Char → Bool
  | [], _ => true
  | _ :: _, [] => false
  | p :: ps, c :: cs => p == c && leadsWith ps cs

/-- `containsSeq pat s` holds when `pat` occurs contiguously inside `s`. -/
def containsSeq (pat : List Char) : List Char → Bool
  | [] => pat.isEmpty
  | c :: t => leadsWith pat (c :: t) || containsSeq pat t

/-- Go strings.Contains(s, sub), used by isNoRequiredModule and
isMissingGoSumEntry (src/internal/worker/vulncheck_scan.go:584-590). -/
def goContains (s sub : List Char) : Bool :=
  containsSeq sub s

/-- Error kinds from internal/derrors that the worker code under analysis can
attach to a result row or return from a scan. -/
inductive DErr where
  | proxyError
  | badModule
  | loadNoGoMod
  | loadNoGoSum
  | loadNoRequiredModule
  | loadMissingGoSumEntry
  | loadPackages
  | vulncheckError
  | vulnDBConnection
  | memLimitExceeded
  | panicErr
  | bigQueryError
  | invalidArgument
deriving DecidableEq, Repr

/-- The text isNoRequiredModule looks for
(src/internal/worker/vulncheck_scan.go:584-586). -/
def noRequiredModuleText : List Char := "no required module".toList

/-- The text isMissingGoSumEntry looks for
(src/internal/worker/vulncheck_scan.go:588-590). -/
def missingGoSumEntryText : List Char := "missing go.sum entry".toList

/-- Load-error classification of runSourceScanInsecure
(src/internal/worker/vulncheck_scan.go:431-443).  `goModExists` and
`goSumExists` model fileExists on tempDir/go.mod and tempDir/go.sum, and
`errText` is the text of the package-loading error being classified. -/
def classifyLoadError (goModExists goSumExists : Bool) (errText : List Char) : DErr :=
  if !goModExists then DErr.loadNoGoMod
  else if !goSumExists then DErr.loadNoGoSum
  else if goContains errText noRequiredModuleText then DErr.loadNoRequiredModule
  else if goContains errText missingGoSumEntryText then DErr.loadMissingGoSumEntry
  else DErr.loadPackages

/-- ASCII decimal digit test. -/
def isDigit (c : Char) : Bool :=
  '0' ≤ c && c ≤ '9'

/-- Value of a digit string, most significant digit first. -/
def digitsVal : List Char → Nat → Nat
  | [], acc => acc
  | c :: t, acc => digitsVal t (acc * 10 + (c.toNat - '0'.toNat))

/-- Go strconv.ParseUint(s, 10, 64): a nonempty all-digit string whose value
fits in 64 bits; no sign and no underscores are accepted, and both syntax and
range errors make the caller fall back to 0. -/
def parseUint64 (s : List Char) : Option Nat :=
  if s.isEmpty then none
  else if s.all isDigit then
    if digitsVal s 0 < 2 ^ 64 then some (digitsVal s 0) else none
  else none

/-- The switch on the byte before the trailing i in parseGoMemLimit
(src/internal/worker/vulncheck_scan.go:638-648): K, M and G select a
multiplier, anything else makes the function return 0. -/
def memMult : Char → Option Nat
  | 'K' => some 1024
  | 'M' => some (1024 * 1024)
  | 'G' => some (1024 * 1024 * 1024)
  | _ => none

/-- parseGoMemLimit (src/internal/worker/vulncheck_scan.go:633-656).  The Go
code inspects the last two bytes of the string; the suffix tags K/M/G/i are
ASCII, so byte indexing and character indexing agree, and the model matches on
the reversed character list.  The product v * m is Go uint64 multiplication,
hence the reduction modulo 2 ^ 64. -/
def parseGoMemLimit (s : List Char) : Nat :=
  if s.length < 2 then 0
  else
    match s.reverse with
    | 'i' :: c :: rest =>
      match memMult c with
      | none => 0
      | some m =>
        match parseUint64 rest.reverse with
        | none => 0
        | some v => v * m % 2 ^ 64
    | _ =>
      match parseUint64 s with
      | none => 0
      | some v => v

/-- Suffix half of the spec-side well-formedness classifier below, applied to
the reversed input: a trailing i, a recognized multiplier tag before it, and a
nonempty in-range digit string before that. -/
def goMemLimitSuffixWF : List Char → Bool
  | 'i' :: c :: rest =>
    (memMult c).isSome && !rest.isEmpty &&
      rest.reverse.all isDigit && decide (digitsVal rest.reverse 0 < 2 ^ 64)
  | _ => false

/-- Spec-side classifier for the inputs the amended claim about parseGoMemLimit
calls well formed: a nonempty decimal number fitting in 64 bits followed by Ki,
Mi or Gi, or a bare decimal number of at least two digits fitting in 64 bits.
Used only to state which inputs count as malformed. -/
def goMemLimitWF (s : List Char) : Bool :=
  (decide (2 ≤ s.length) && s.all isDigit && decide (digitsVal s 0 < 2 ^ 64)) ||
    goMemLimitSuffixWF s.reverse

example : parseGoMemLimit "5".toList = 0 := by decide

example : parseGoMemLimit "2Ki".toList = 2048 := by decide

example : parseGoMemLimit "3Mi".toList = 3145728 := by decide

example : parseGoMemLimit "25".toList = 25 := by decide

example : parseGoMemLimit "xKi".toList = 0 := by decide

example : classifyLoadError true true ("xx missing go.sum entry yy".toList) =
    DErr.loadMissingGoSumEntry := by decide

/-! ## The scanner: handleScan and ScanModule
(src/internal/worker/vulncheck_scan.go:79-120 and 187-237) -/

/-- Vulncheck mode constants (src/internal/worker/vulncheck_scan.go:40-54). -/
def ModeVTA : String := "VTA"

def ModeVTAStacks : String := "VTASTACKS"

def ModeImports : String := "IMPORTS"

def ModeBinary : String := "BINARY"

/-- Work version triple.  Modelled from the spec: bigquery.VulncheckWorkVersion
and its Equal method are not under src/; per the spec a work version is the
triple (analyzer revision, vulndb last-modified, schema revision) and two work
versions are equal iff all three fields match. -/
structure WorkVersion where
  analyzerRevision : String
  vulnDBLastModified : String
  schemaRevision : String
deriving DecidableEq, Repr

/-- scanner.workVersion.Equal(wv) where wv is the stored-map lookup result
(nil when the key is absent): Equal is false against a missing stored
version. -/
def wvEqualOpt (w : WorkVersion) : Option WorkVersion → Bool
  | none => false
  | some w2 => w == w2

/-- A parsed scan request (module coordinate plus request params), as
delivered by scan.ParseRequest. -/
structure ScanRequest where
  module : String
  version : String
  suffix : String
  mode : String
  importedBy : Nat
  insecure : Bool
deriving DecidableEq, Repr

/-- Observable actions of one request's pass through the scanner, in program
order: the shouldSkip deny-list lookup, the stored-work-version comparison,
the proxy Info call, the runScanModule analysis, and the BigQuery row
upload. -/
inductive Ev where
  | skipListCheck
  | workVersionCheck
  | proxyInfo
  | analyze
  | rowAppend
deriving DecidableEq, Repr

/-- A converted vulnerability record (convertVuln,
src/internal/worker/vulncheck_scan.go:603-613); the sink offsets play no role
in the claims and are omitted. -/
structure Vuln where
  id : String
  modulePath : String
  packagePath : String
  symbol : String
deriving DecidableEq, Repr

/-- The fields of a bigquery.VulnResult row that the claims are about. -/
structure Row where
  modulePath : String
  version : String
  suffix : String
  scanMode : String
  vulns : List Vuln
  errorField : Option DErr
deriving DecidableEq, Repr

/-- Modelled from the spec: bigquery.VulnResult.AddError is not under src/;
it attaches the given error to the row's error field. -/
def Row.addError (r : Row) (e : DErr) : Row :=
  { r with errorField := some e }

/-- The part of the proxy Info response used by ScanModule. -/
structure ProxyInfo where
  version : String
deriving DecidableEq, Repr

/-- The scan-dependent inputs of one ScanModule call: the outcome of the
proxy Info call, the outcome of runScanModule, whether a BigQuery client is
configured, and whether the row upload succeeds. -/
structure ScanIO where
  proxyResult : Except DErr ProxyInfo
  scanResult : Except DErr (List Vuln)
  bqEnabled : Bool
  uploadOk : Bool

/-- Result of one ScanModule call: the row value the scanner holds when it
returns, the row actually received by the analytics store (if any), and the
observable actions in order. -/
structure ScanModuleOut where
  row : Option Row
  appended : Option Row
  events : List Ev
deriving Repr

/-- ScanModule (src/internal/worker/vulncheck_scan.go:187-237): return with no
row for the standard library; on a proxy Info failure attach PROXY_ERROR and
return before any upload; otherwise attach the scan error or the vulns,
upload when BigQuery is configured, and on an upload failure attach
BigQueryError to the locally retained row. -/
def ScanModule (sreq : ScanRequest) (io : ScanIO) : ScanModuleOut :=
  if sreq.module == "std" then
    { row := none, appended := none, events := [] }
  else
    let row0 : Row :=
      { modulePath := sreq.module, version := "", suffix := sreq.suffix,
        scanMode := "", vulns := [], errorField := none }
    match io.proxyResult with
    | Except.error _ =>
      { row := some (row0.addError DErr.proxyError), appended := none,
        events := [Ev.proxyInfo] }
    | Except.ok info =>
      let row1 := { row0 with version := info.version, scanMode := sreq.mode }
      let row2 :=
        match io.scanResult with
        | Except.error e => row1.addError e
        | Except.ok vulns => { row1 with vulns := vulns }
      if io.bqEnabled then
        if io.uploadOk then
          { row := some row2, appended := some row2,
            events := [Ev.proxyInfo, Ev.analyze, Ev.rowAppend] }
        else
          { row := some (row2.addError DErr.bigQueryError), appended := none,
            events := [Ev.proxyInfo, Ev.analyze, Ev.rowAppend] }
      else
        { row := some row2, appended := none,
          events := [Ev.proxyInfo, Ev.analyze] }

/-- The per-worker state handleScan consults: the shouldSkip deny-list, the
stored work versions keyed by (module path, version), the current analyzer
work version, and the configured insecure default. -/
structure WorkerEnv where
  skipList : List String
  stored : List ((String × String) × WorkVersion)
  workVersion : WorkVersion
  cfgInsecure : Bool

/-- h.storedWorkVersions lookup
(src/internal/worker/vulncheck_scan.go:110). -/
def lookupStored (stored : List ((String × String) × WorkVersion))
    (m v : String) : Option WorkVersion :=
  match stored.find? (fun p => p.1 == (m, v)) with
  | none => none
  | some p => some p.2

/-- Mode defaulting (src/internal/worker/vulncheck_scan.go:91-93): an empty
mode becomes ModeVTA. -/
def withDefaultMode (sreq : ScanRequest) : ScanRequest :=
  if sreq.mode == "" then { sreq with mode := ModeVTA } else sreq

/-- Result of one handleScan call: the returned error, the observable actions
in order, the scanner's insecure flag after the query-parameter override
(none when the request returned before a scanner was created), and the
ScanModule result when a scan ran. -/
structure HandleScanOut where
  err : Option DErr
  events : List Ev
  scannerInsecure : Option Bool
  scanOut : Option ScanModuleOut
deriving Repr

/-- handleScan (src/internal/worker/vulncheck_scan.go:79-120), after
scan.ParseRequest has succeeded.  `insecureParam` is the raw value of
r.FormValue("insecure"): empty both when the query parameter is absent and
when it is present with an empty value.  Program order: mode defaulting, the
shouldSkip deny-list lookup, reading the stored work versions and creating
the scanner, the insecure override, the stored-work-version comparison, and
finally ScanModule. -/
def handleScan (env : WorkerEnv) (sreq0 : ScanRequest) (insecureParam : String)
    (io : ScanIO) : HandleScanOut :=
  let sreq := withDefaultMode sreq0
  if env.skipList.contains sreq.module then
    { err := none, events := [Ev.skipListCheck], scannerInsecure := none,
      scanOut := none }
  else
    let ins := if insecureParam ≠ "" then sreq.insecure else env.cfgInsecure
    let wv := lookupStored env.stored sreq.module sreq.version
    if wvEqualOpt env.workVersion wv then
      { err := none, events := [Ev.skipListCheck, Ev.workVersionCheck],
        scannerInsecure := some ins, scanOut := none }
    else
      let so := ScanModule sreq io
      { err := none,
        events := [Ev.skipListCheck, Ev.workVersionCheck] ++ so.events,
        scannerInsecure := some ins, scanOut := some so }

/-! ## The active-scan counter
(src/internal/worker/scan.go:23-46 and src/internal/worker/vulncheck_scan.go:245-265) -/

/-- Effects on the process-wide atomic counter activeScans. -/
inductive Eff where
  | incEff
  | decEff
deriving DecidableEq, Repr

/-- How the scan body f finishes: normally, with an error (this includes the
memory-monitor cancellation, which surfaces as an ordinary error return), or
by panicking. -/
inductive FOutcome where
  | ok
  | fail
  | panicked
deriving DecidableEq, Repr

/-- Counter effects of one doScan call (src/internal/worker/scan.go:25-46; the
same pattern appears in runScanModule, src/internal/worker/vulncheck_scan.go:
259-265): activeScans.Add(1) runs on entry, and the decrement deferred right
after it runs on normal return, on error return and during panic unwinding
alike, before the recover deferred at lines 28-32 converts a panic into an
error.  The body f never touches the counter, so every call contributes
exactly one increment followed later by exactly one decrement. -/
def doScanEffects (_o : FOutcome) : List Eff :=
  [Eff.incEff, Eff.decEff]

/-- The error doScan returns: the deferred recover turns a panic into
derrors.ScanModulePanicError; otherwise f decides. -/
def doScanResult (o : FOutcome) (fErr : Option DErr) : Option DErr :=
  match o with
  | FOutcome.ok => none
  | FOutcome.fail => fErr
  | FOutcome.panicked => some DErr.panicErr

/-- Interleaved executions of the counter effects of concurrently running
scans: `ScanTrace pending inflight t` holds when, with `pending` scans not yet
started and `inflight` scans started but not yet finished, `t` is a possible
remaining global order of counter effects.  Each scan contributes exactly
doScanEffects: its increment strictly before its decrement. -/
inductive ScanTrace : Nat → Nat → List Eff → Prop where
  | done : ScanTrace 0 0 []
  | start {p i t} : ScanTrace p (i + 1) t → ScanTrace (p + 1) i (Eff.incEff :: t)
  | finish {p i t} : ScanTrace p i t → ScanTrace p (i + 1) (Eff.decEff :: t)

/-- Successive values of the atomic counter along a trace, starting from c,
each paired with the effect that produced it. -/
def counterRun (c : Int) : List Eff → List (Eff × Int)
  | [] => []
  | Eff.incEff :: t => (Eff.incEff, c + 1) :: counterRun (c + 1) t
  | Eff.decEff :: t => (Eff.decEff, c - 1) :: counterRun (c - 1) t

/-- Counter value after the whole trace. -/
def finalCounter (c : Int) : List Eff → Int
  | [] => c
  | Eff.incEff :: t => finalCounter (c + 1) t
  | Eff.decEff :: t => finalCounter (c - 1) t

/-- Number of cleanGoCaches invocations along a trace: the deferred decrement
calls it exactly when activeScans.Add(-1) returned zero
(src/internal/worker/scan.go:38-44). -/
def cleanCount (c : Int) : List Eff → Nat
  | [] => 0
  | Eff.incEff :: t => cleanCount (c + 1) t
  | Eff.decEff :: t => (if c - 1 = 0 then 1 else 0) + cleanCount (c - 1) t

/-! ## The memory monitor
(src/internal/worker/vulncheck_scan.go:483-503) -/

/-- The analyzer result produced by f inside runWithMemoryMonitor. -/
structure VRes where
  vulns : List Vuln
deriving DecidableEq, Repr

/-- Modelled from the spec: newMemMonitor is not under src/.  The monitor
samples heap usage at a fixed cadence; when the limit is positive and a sample
exceeds it, the monitor cancels the context it was given, and stop() reports
the maximum sample observed. -/
def monitorTrips (limit : Nat) (samples : List Nat) : Bool :=
  decide (0 < limit) && samples.any (fun x => decide (limit < x))

/-- Peak heap sample, as reported by the stop() of the monitor. -/
def peakSample (samples : List Nat) : Nat :=
  samples.foldl max 0

/-- One execution of runWithMemoryMonitor: the configured limit, the heap
samples the monitor took, whether the surrounding context was canceled
(client disconnect or worker shutdown), the result f eventually sends on the
rendezvous channel, and which select case wins when both the result channel
and the Done channel are ready. -/
structure MonitorRun where
  limit : Nat
  samples : List Nat
  parentCanceled : Bool
  fRes : Except DErr VRes
  fWinsRace : Bool

/-- runWithMemoryMonitor (src/internal/worker/vulncheck_scan.go:483-503): the
derived context cctx is canceled when the monitor trips or when the
surrounding context is canceled; the select then yields
derrors.ScanModuleMemoryLimitExceeded unless the result of f wins the race;
the returned memory is what stop() reports. -/
def runWithMemoryMonitor (run : MonitorRun) : Except DErr VRes × Nat :=
  let done := monitorTrips run.limit run.samples || run.parentCanceled
  let peak := peakSample run.samples
  if done && !run.fWinsRace then (Except.error DErr.memLimitExceeded, peak)
  else (run.fRes, peak)

/-! ## The enqueue planner
(src/unnamed/part_000: createVulncheckQueueTasks at lines 174-203 of the
worker part, TestNewTaskRequest at lines 34-97 of the queue part) -/

/-- A module of the scan population: path, version and importer count, as
read by readModules. -/
structure ModSpec where
  path : String
  version : String
  importedBy : Nat
deriving DecidableEq, Repr

/-- Modelled from the spec: moduleSpecsToScanRequests is not under src/; it
turns each module of the population into one scan request carrying the given
mode. -/
def moduleSpecsToScanRequests (specs : List ModSpec) (mode : String) :
    List ScanRequest :=
  specs.map (fun m =>
    { module := m.path, version := m.version, suffix := "", mode := mode,
      importedBy := m.importedBy, insecure := false })

/-- createVulncheckQueueTasks (src/unnamed/part_000, worker part, lines
174-203): for each mode take the readBinaries result (ModeBinary) or the
requests derived from the module population, and append every request whose
module is not the standard library.  `binReqs` is what readBinaries returns
and `modspecs` the population that readModules reads once. -/
def createVulncheckQueueTasks (modes : List String) (binReqs : List ScanRequest)
    (modspecs : List ModSpec) : List ScanRequest :=
  (modes.map (fun mode =>
    (if mode == ModeBinary then binReqs
     else moduleSpecsToScanRequests modspecs mode).filter
      (fun r => r.module != "std"))).flatten

/-- The fields that determine a task identifier: the spec derives the task id
deterministically from the escaped module path, version and suffix, so two
descriptors with equal key have equal task identifiers. -/
def taskKey (r : ScanRequest) : String × String × String :=
  (r.module, r.version, r.suffix)

/-! ## The task URL (src/unnamed/part_000, queue part, lines 34-97) -/

/-- Task URL before the DisableProxyFetch option.  Modelled from the spec and
pinned by TestNewTaskRequest: newTaskRequest itself is not under src/, and the
test fixes the URL for namespace "test", module "mod", version "v1.2.3",
importedby 0, mode "test", insecure true. -/
def scanTaskBaseURL (queueURL ns modPath ver : String) (importedBy : Nat)
    (mode : String) (insecure : Bool) : String :=
  queueURL ++ "/" ++ ns ++ "/scan/" ++ modPath ++ "/@v/" ++ ver ++
    "?importedby=" ++ toString importedBy ++ "&mode=" ++ mode ++
    "&insecure=" ++ (if insecure then "true" else "false")

/-- Task URL produced by newTaskRequest.  Pinned by TestNewTaskRequest
(src/unnamed/part_000, queue part, lines 86-95): with DisableProxyFetch set,
the literal string "?proxyfetch=off" is appended to the already-parameterized
URL. -/
def newTaskRequestURL (queueURL ns modPath ver : String) (importedBy : Nat)
    (mode : String) (insecure disableProxyFetch : Bool) : String :=
  scanTaskBaseURL queueURL ns modPath ver importedBy mode insecure ++
    (if disableProxyFetch then "?proxyfetch=off" else "")

/-- Everything after the first question mark of a URL, if any: the query
component under standard URL parsing. -/
def afterQ : List Char → Option (List Char)
  | [] => none
  | c :: t => if c == '?' then some t else afterQ t

/-- Split a query component at ampersands. -/
def splitAmp : List Char → List (List Char)
  | [] => [[]]
  | c :: t =>
    let r := splitAmp t
    if c == '&' then [] :: r
    else
      match r with
      | [] => [[c]]
      | h :: t2 => (c :: h) :: t2

/-- The query parameters of a URL: the pieces of the query component between
ampersands; empty when the URL has no question mark. -/
def queryParams (url : String) : List String :=
  match afterQ url.toList with
  | none => []
  | some q => (splitAmp q).map (fun l => String.mk l)

example :
    newTaskRequestURL "http://1.2.3.4:8000" "test" "mod" "v1.2.3" 0 "test" true false =
      "http://1.2.3.4:8000/test/scan/mod/@v/v1.2.3?importedby=0&mode=test&insecure=true" := by
  decide

example :
    newTaskRequestURL "http://1.2.3.4:8000" "test" "mod" "v1.2.3" 0 "test" true true =
      "http://1.2.3.4:8000/test/scan/mod/@v/v1.2.3?importedby=0&mode=test&insecure=true?proxyfetch=off" := by
  decide

example :
    queryParams "http://h/p?a=1&b=2" = ["a=1", "b=2"] := by decide

/-! ## Helper lemmas -/

theorem leadsWith_iff (p : List Char) : ∀ s : List Char,
    leadsWith p s = true ↔ ∃ r, s = p ++ r := by
  induction p with
  | nil => intro s; simp [leadsWith]
  | cons a ps ih =>
    intro s
    cases s with
    | nil => simp [leadsWith]
    | cons c cs =>
      simp only [leadsWith, Bool.and_eq_true, beq_iff_eq, ih, List.cons_append,
        List.cons.injEq]
      constructor
      · rintro ⟨rfl, r, rfl⟩; exact ⟨r, rfl, rfl⟩
      · rintro ⟨r, rfl, rfl⟩; exact ⟨rfl, r, rfl⟩

theorem containsSeq_iff (sub : List Char) : ∀ s : List Char,
    containsSeq sub s = true ↔ ∃ pre post, s = pre ++ sub ++ post := by
  intro s
  induction s with
  | nil =>
    simp only [containsSeq, List.isEmpty_iff]
    constructor
    · rintro rfl; exact ⟨[], [], rfl⟩
    · rintro ⟨pre, post, h⟩
      rcases List.append_eq_nil.mp (List.append_eq_nil.mp h.symm).1 with ⟨-, h2⟩
      exact h2
  | cons c t ih =>
    simp only [containsSeq, Bool.or_eq_true, leadsWith_iff, ih]
    constructor
    · rintro (⟨r, hr⟩ | ⟨pre, post, rfl⟩)
      · exact ⟨[], r, by simpa using hr⟩
      · exact ⟨c :: pre, post, rfl⟩
    · rintro ⟨pre, post, h⟩
      cases pre with
      | nil => exact Or.inl ⟨post, by simpa using h⟩
      | cons a pre2 =>
        rcases (List.cons.injEq ..).mp (by simpa using h) with ⟨rfl, h2⟩
        exact Or.inr ⟨pre2, post, by simpa [List.append_assoc] using h2⟩

theorem goContains_iff (s sub : List Char) :
    goContains s sub = true ↔ ∃ pre post, s = pre ++ sub ++ post :=
  containsSeq_iff sub s

/-! ## C5: load-error classification -/

/-- C5: when package loading fails during an insecure source scan, the error
is classified with this exact precedence: a missing go.mod at the temp-dir
root gives LOAD_NO_GO_MOD; else a missing go.sum gives LOAD_NO_GO_SUM; else
error text containing "no required module" gives LOAD_NO_REQUIRED_MODULE;
else error text containing "missing go.sum entry" gives
LOAD_MISSING_GO_SUM_ENTRY; otherwise LOAD_PACKAGES.  Each classification is
characterized exactly, and goContains is proved to mean substring
occurrence. -/
theorem classifyLoadError_precedence (gm gs : Bool) (errText : List Char) :
    noRequiredModuleText = "no required module".toList ∧
    missingGoSumEntryText = "missing go.sum entry".toList ∧
    (∀ pat, goContains errText pat = true ↔ ∃ pre post, errText = pre ++ pat ++ post) ∧
    (classifyLoadError gm gs errText = DErr.loadNoGoMod ↔ gm = false) ∧
    (classifyLoadError gm gs errText = DErr.loadNoGoSum ↔ gm = true ∧ gs = false) ∧
    (classifyLoadError gm gs errText = DErr.loadNoRequiredModule ↔
      gm = true ∧ gs = true ∧
        goContains errText noRequiredModuleText = true) ∧
    (classifyLoadError gm gs errText = DErr.loadMissingGoSumEntry ↔
      gm = true ∧ gs = true ∧
        goContains errText noRequiredModuleText = false ∧
        goContains errText missingGoSumEntryText = true) ∧
    (classifyLoadError gm gs errText = DErr.loadPackages ↔
      gm = true ∧ gs = true ∧
        goContains errText noRequiredModuleText = false ∧
        goContains errText missingGoSumEntryText = false) := by
  refine ⟨rfl, rfl, fun pat => goContains_iff errText pat, ?_⟩
  cases gm <;> cases gs <;>
    cases h1 : goContains errText noRequiredModuleText <;>
    cases h2 : goContains errText missingGoSumEntryText <;>
      simp [classifyLoadError, h1, h2]

/-! ## C10: parseGoMemLimit -/

theorem parseUint64_some (s : List Char) (hne : s ≠ [])
    (hdig : s.all isDigit = true) (hlt : digitsVal s 0 < 2 ^ 64) :
    parseUint64 s = some (digitsVal s 0) := by
  unfold parseUint64
  rw [if_neg (by simp [hne]), if_pos hdig, if_pos hlt]

theorem parseUint64_none (s : List Char)
    (h : s = [] ∨ s.all isDigit = false ∨ 2 ^ 64 ≤ digitsVal s 0) :
    parseUint64 s = none := by
  by_cases hne : s = []
  · subst hne; rfl
  · unfold parseUint64
    rw [if_neg (by simp [hne])]
    rcases h with rfl | hd | hl
    · exact absurd rfl hne
    · simp [hd]
    · cases hd : s.all isDigit
      · simp [hd]
      · rw [if_pos rfl, if_neg (Nat.not_lt.mpr hl)]

theorem parseGoMemLimit_suffix (ds : List Char) (k : Char) (m : Nat)
    (hk : (k = 'K' ∧ m = 1024) ∨ (k = 'M' ∧ m = 1024 * 1024) ∨
      (k = 'G' ∧ m = 1024 * 1024 * 1024)) :
    parseGoMemLimit (ds ++ [k, 'i']) =
      match parseUint64 ds with
      | none => 0
      | some v => v * m % 2 ^ 64 := by
  have hlen : ¬ (ds ++ [k, 'i']).length < 2 := by
    simp [List.length_append]
  have hrev : (ds ++ [k, 'i']).reverse = 'i' :: k :: ds.reverse := by
    simp
  rcases hk with ⟨rfl, rfl⟩ | ⟨rfl, rfl⟩ | ⟨rfl, rfl⟩ <;>
    simp [parseGoMemLimit, hlen, hrev, memMult]

/-- Refutes C10 at two concrete inputs.  The claim says a bare multi-digit
decimal number is returned unchanged, but the 20-digit input 2 ^ 64 is a
range error for ParseUint and yields 0; and it says a number followed by Ki
is returned multiplied by 1024, but for 2 ^ 64 - 1 the Go uint64 product
wraps around to 2 ^ 64 - 1024 instead of (2 ^ 64 - 1) * 1024. -/
theorem parseGoMemLimit_overflow_cex :
    parseGoMemLimit ("18446744073709551616".toList) = 0 ∧
    parseGoMemLimit ("18446744073709551615Ki".toList) = 18446744073709550592 ∧
    (18446744073709550592 : Nat) ≠ 18446744073709551615 * 1024 :=
  ⟨by decide, by decide, by decide⟩

/-- C10 amended: parseGoMemLimit returns 0 for every input shorter than two
characters (including one-digit counts such as "5") and for every malformed
input, where a number that does not fit in 64 bits is malformed; for a
decimal number fitting in 64 bits followed by Ki, Mi or Gi it returns the
number times 1024, 1024 ^ 2 or 1024 ^ 3 reduced modulo 2 ^ 64 (Go uint64
multiplication); a bare multi-digit decimal number fitting in 64 bits is
returned unchanged. -/
theorem parseGoMemLimit_spec :
    (∀ s : List Char, s.length < 2 → parseGoMemLimit s = 0) ∧
    parseGoMemLimit ['5'] = 0 ∧
    (∀ ds : List Char, ds ≠ [] → ds.all isDigit = true →
      digitsVal ds 0 < 2 ^ 64 →
      parseGoMemLimit (ds ++ ['K', 'i']) = digitsVal ds 0 * 1024 % 2 ^ 64 ∧
      parseGoMemLimit (ds ++ ['M', 'i']) =
        digitsVal ds 0 * (1024 * 1024) % 2 ^ 64 ∧
      parseGoMemLimit (ds ++ ['G', 'i']) =
        digitsVal ds 0 * (1024 * 1024 * 1024) % 2 ^ 64) ∧
    (∀ ds : List Char, 2 ≤ ds.length → ds.all isDigit = true →
      digitsVal ds 0 < 2 ^ 64 → parseGoMemLimit ds = digitsVal ds 0) ∧
    (∀ s : List Char, goMemLimitWF s = false → parseGoMemLimit s = 0) := by
  refine ⟨?_, by decide, ?_, ?_, ?_⟩
  · intro s h
    simp [parseGoMemLimit, h]
  · intro ds hne hdig hlt
    refine ⟨?_, ?_, ?_⟩
    · rw [parseGoMemLimit_suffix ds 'K' 1024 (Or.inl ⟨rfl, rfl⟩),
        parseUint64_some ds hne hdig hlt]
    · rw [parseGoMemLimit_suffix ds 'M' (1024 * 1024) (Or.inr (Or.inl ⟨rfl, rfl⟩)),
        parseUint64_some ds hne hdig hlt]
    · rw [parseGoMemLimit_suffix ds 'G' (1024 * 1024 * 1024)
        (Or.inr (Or.inr ⟨rfl, rfl⟩)), parseUint64_some ds hne hdig hlt]
  · intro ds hlen hdig hlt
    have h2 : ¬ ds.length < 2 := by omega
    simp only [parseGoMemLimit, if_neg h2]
    split
    · rename_i c rest heq
      have hmem : 'i' ∈ ds := by
        rw [← List.mem_reverse, heq]
        exact List.mem_cons_self _ _
      have : isDigit 'i' = true := (List.all_eq_true.mp hdig) 'i' hmem
      simp [isDigit] at this
    · rw [parseUint64_some ds (by intro h; subst h; simp at hlen) hdig hlt]
  · intro s hWF
    by_cases hl : s.length < 2
    · simp [parseGoMemLimit, hl]
    · simp only [parseGoMemLimit, if_neg hl]
      unfold goMemLimitWF at hWF
      rw [Bool.or_eq_false_iff] at hWF
      obtain ⟨hbare, hsuf⟩ := hWF
      split
      · rename_i c rest heq
        rw [heq] at hsuf
        cases hm : memMult c with
        | none => rfl
        | some m =>
          rw [goMemLimitSuffixWF, hm] at hsuf
          simp only [Option.isSome_some, Bool.true_and] at hsuf
          rw [Bool.and_eq_false_iff] at hsuf
          have hnone : parseUint64 rest.reverse = none := by
            rcases hsuf with h1 | h2
            · rw [Bool.and_eq_false_iff] at h1
              rcases h1 with h3 | h4
              · have hre : rest = [] := by
                  cases hq : rest.isEmpty
                  · rw [hq] at h3; simp at h3
                  · simpa using hq
                exact parseUint64_none _ (Or.inl (by simp [hre]))
              · exact parseUint64_none _ (Or.inr (Or.inl h4))
            · have h2b : ¬ digitsVal rest.reverse 0 < 2 ^ 64 := by
                simpa using h2
              exact parseUint64_none _ (Or.inr (Or.inr (Nat.not_lt.mp h2b)))
          rw [hnone]
      · rename_i hne2
        rw [Bool.and_eq_false_iff, Bool.and_eq_false_iff] at hbare
        have hnone : parseUint64 s = none := by
          rcases hbare with (hb | hb) | hb
          · exfalso
            rw [decide_eq_false_iff_not] at hb
            omega
          · exact parseUint64_none s (Or.inr (Or.inl hb))
          · exact parseUint64_none s
              (Or.inr (Or.inr (by simpa using hb)))
        rw [hnone]

/-- Witness for parseGoMemLimit_spec: each hypothesized part applied at a
concrete input. -/
theorem parseGoMemLimit_spec_witness :
    parseGoMemLimit ['7'] = 0 ∧
    parseGoMemLimit (['2'] ++ ['K', 'i']) = digitsVal ['2'] 0 * 1024 % 2 ^ 64 ∧
    parseGoMemLimit ['2', '5'] = digitsVal ['2', '5'] 0 ∧
    parseGoMemLimit ['a', 'b'] = 0 :=
  ⟨parseGoMemLimit_spec.1 ['7'] (by decide),
   (parseGoMemLimit_spec.2.2.1 ['2'] (by decide) (by decide) (by decide)).1,
   parseGoMemLimit_spec.2.2.2.1 ['2', '5'] (by decide) (by decide) (by decide),
   parseGoMemLimit_spec.2.2.2.2 ['a', 'b'] (by decide)⟩

/-! ## C1, C6, C7: handleScan -/

theorem withDefaultMode_module (sreq : ScanRequest) :
    (withDefaultMode sreq).module = sreq.module := by
  unfold withDefaultMode; split <;> rfl

theorem withDefaultMode_version (sreq : ScanRequest) :
    (withDefaultMode sreq).version = sreq.version := by
  unfold withDefaultMode; split <;> rfl

theorem withDefaultMode_insecure (sreq : ScanRequest) :
    (withDefaultMode sreq).insecure = sreq.insecure := by
  unfold withDefaultMode; split <;> rfl

/-- A work version used by the concrete scenarios below. -/
def wvA : WorkVersion :=
  { analyzerRevision := "r1", vulnDBLastModified := "2022-11-01",
    schemaRevision := "s1" }

/-- A different work version, for scenarios where the stored one is stale. -/
def wvB : WorkVersion :=
  { analyzerRevision := "r0", vulnDBLastModified := "2022-10-01",
    schemaRevision := "s1" }

/-- A request used by the concrete scenarios below. -/
def sreqA : ScanRequest :=
  { module := "example.com/m", version := "v1.0.0", suffix := "",
    mode := "VTA", importedBy := 3, insecure := false }

/-- Scan-dependent inputs where everything succeeds and no vulns are found. -/
def ioOk : ScanIO :=
  { proxyResult := Except.ok { version := "v1.0.0" },
    scanResult := Except.ok [], bqEnabled := true, uploadOk := true }

/-- Worker state where the stored work version for sreqA equals the current
one and nothing is deny-listed. -/
def envDedup : WorkerEnv :=
  { skipList := [], stored := [(("example.com/m", "v1.0.0"), wvA)],
    workVersion := wvA, cfgInsecure := false }

/-- Worker state where the module of sreqA is deny-listed while its stored
work version is stale. -/
def envDeny : WorkerEnv :=
  { skipList := ["example.com/m"],
    stored := [(("example.com/m", "v1.0.0"), wvB)],
    workVersion := wvA, cfgInsecure := false }

/-- C1: a scan request whose (module path, version) has a stored work version
equal to the current work version of the scanner makes handleScan return
success, with no proxy Info call, no analyzer run and no appended result
row. -/
theorem handleScan_dedup_skip (env : WorkerEnv) (sreq : ScanRequest)
    (p : String) (io : ScanIO)
    (h : wvEqualOpt env.workVersion
      (lookupStored env.stored sreq.module sreq.version) = true) :
    (handleScan env sreq p io).err = none ∧
    Ev.proxyInfo ∉ (handleScan env sreq p io).events ∧
    Ev.analyze ∉ (handleScan env sreq p io).events ∧
    Ev.rowAppend ∉ (handleScan env sreq p io).events ∧
    (handleScan env sreq p io).scanOut = none := by
  unfold handleScan
  dsimp only
  rw [withDefaultMode_module, withDefaultMode_version]
  by_cases hs : sreq.module ∈ env.skipList
  · simp [hs]
  · simp [hs, h]

/-- Witness for handleScan_dedup_skip at the concrete dedup scenario. -/
theorem handleScan_dedup_skip_witness :
    (handleScan envDedup sreqA "" ioOk).err = none ∧
    Ev.proxyInfo ∉ (handleScan envDedup sreqA "" ioOk).events ∧
    Ev.analyze ∉ (handleScan envDedup sreqA "" ioOk).events ∧
    Ev.rowAppend ∉ (handleScan envDedup sreqA "" ioOk).events ∧
    (handleScan envDedup sreqA "" ioOk).scanOut = none :=
  handleScan_dedup_skip envDedup sreqA "" ioOk (by decide)

/-- Refutes C6 at a concrete input: for a deny-listed module whose stored work
version differs from the current one, handleScan returns at the deny-list
check and the work-version comparison never runs, so the deny-list is
consulted first, not after the dedup check as the claim states. -/
theorem handleScan_denylist_cex :
    (handleScan envDeny sreqA "" ioOk).events = [Ev.skipListCheck] ∧
    Ev.workVersionCheck ∉ (handleScan envDeny sreqA "" ioOk).events := by
  constructor
  · decide
  · decide

/-- C6 amended: handleScan consults the shouldSkip deny-list before the
stored-work-version dedup comparison.  The deny-list check is always the
first observable action; a deny-listed module is skipped with no work-version
check at all; for every other request the work-version check immediately
follows the deny-list check. -/
theorem handleScan_skiplist_first (env : WorkerEnv) (sreq : ScanRequest)
    (p : String) (io : ScanIO) :
    (handleScan env sreq p io).events.head? = some Ev.skipListCheck ∧
    (sreq.module ∈ env.skipList →
      (handleScan env sreq p io).events = [Ev.skipListCheck]) ∧
    (sreq.module ∉ env.skipList →
      ∃ rest, (handleScan env sreq p io).events =
        Ev.skipListCheck :: Ev.workVersionCheck :: rest) := by
  unfold handleScan
  dsimp only
  rw [withDefaultMode_module, withDefaultMode_version]
  by_cases hs : sreq.module ∈ env.skipList
  · simp [hs]
  · refine ⟨?_, fun hc => absurd hc hs, fun _ => ?_⟩
    · by_cases hw : wvEqualOpt env.workVersion
        (lookupStored env.stored sreq.module sreq.version) <;> simp [hs, hw]
    · by_cases hw : wvEqualOpt env.workVersion
          (lookupStored env.stored sreq.module sreq.version)
      · exact ⟨[], by simp [hs, hw]⟩
      · exact ⟨(ScanModule (withDefaultMode sreq) io).events, by simp [hs, hw]⟩

/-- Witness for handleScan_skiplist_first: the deny-listed scenario yields the
bare deny-list trace, the clean scenario starts with the deny-list check and
then the work-version check. -/
theorem handleScan_skiplist_first_witness :
    (handleScan envDeny sreqA "" ioOk).events = [Ev.skipListCheck] ∧
    ∃ rest, (handleScan envDedup sreqA "" ioOk).events =
      Ev.skipListCheck :: Ev.workVersionCheck :: rest :=
  ⟨(handleScan_skiplist_first envDeny sreqA "" ioOk).2.1 (by decide),
   (handleScan_skiplist_first envDedup sreqA "" ioOk).2.2 (by decide)⟩

/-- C7: in handleScan the insecure query parameter overrides the configured
insecure default of the worker exactly when it is present with a non-empty
value; when absent or empty, the configured default is kept. -/
theorem handleScan_insecure_override (env : WorkerEnv) (sreq : ScanRequest)
    (p : String) (io : ScanIO)
    (hns : sreq.module ∉ env.skipList) :
    (p ≠ "" → (handleScan env sreq p io).scannerInsecure = some sreq.insecure) ∧
    (p = "" → (handleScan env sreq p io).scannerInsecure = some env.cfgInsecure) := by
  unfold handleScan
  dsimp only
  rw [withDefaultMode_module, withDefaultMode_version, withDefaultMode_insecure]
  constructor
  · intro hp
    by_cases hw : wvEqualOpt env.workVersion
        (lookupStored env.stored sreq.module sreq.version) <;>
      simp [hns, hw, hp]
  · intro hp
    subst hp
    by_cases hw : wvEqualOpt env.workVersion
        (lookupStored env.stored sreq.module sreq.version) <;>
      simp [hns, hw]

/-- Witness for handleScan_insecure_override: with a non-empty parameter the
requested value wins; with an empty parameter the configured default is
kept. -/
theorem handleScan_insecure_override_witness :
    (handleScan envDedup sreqA "1" ioOk).scannerInsecure = some sreqA.insecure ∧
    (handleScan envDedup sreqA "" ioOk).scannerInsecure = some envDedup.cfgInsecure :=
  ⟨(handleScan_insecure_override envDedup sreqA "1" ioOk (by decide)).1 (by decide),
   (handleScan_insecure_override envDedup sreqA "" ioOk (by decide)).2 rfl⟩

/-! ## C3: result-row outcome fields -/

/-- The row that the dedup-free success scenario appends: a clean scan of
sreqA that found no vulnerabilities. -/
def rowNoVulns : Row :=
  { modulePath := "example.com/m", version := "v1.0.0", suffix := "",
    scanMode := "VTA", vulns := [], errorField := none }

/-- Refutes C3 at a concrete input: a successful scan that found no
vulnerabilities appends a row whose vulns list is empty and whose error field
is empty, so neither outcome field is populated, against the claim's
"never neither". -/
theorem scanModule_exactly_one_cex :
    (ScanModule sreqA ioOk).appended = some rowNoVulns ∧
    rowNoVulns.vulns = [] ∧ rowNoVulns.errorField = none := by
  refine ⟨?_, rfl, rfl⟩
  decide

/-- C3 amended: every row appended to the analytics store has at most one
outcome field populated: on a failed scan the error field carries the error
and the vulns list is empty; on a successful scan the error field is empty
and the vulns list is exactly the returned list, which may itself be empty
(zero vulnerabilities), in which case neither field is populated. -/
theorem scanModule_appended_row (sreq : ScanRequest) (io : ScanIO) (r : Row)
    (h : (ScanModule sreq io).appended = some r) :
    (¬ (r.errorField ≠ none ∧ r.vulns ≠ [])) ∧
    (∀ e, io.scanResult = Except.error e → r.errorField = some e ∧ r.vulns = []) ∧
    (∀ vs, io.scanResult = Except.ok vs → r.errorField = none ∧ r.vulns = vs) := by
  unfold ScanModule at h
  split at h
  · exact absurd h (by simp)
  · dsimp only at h
    split at h
    · exact absurd h (by simp)
    · split at h
      · split at h
        · dsimp only at h
          rw [Option.some.injEq] at h
          subst h
          cases hs : io.scanResult with
          | error e =>
            refine ⟨?_, fun e2 he2 => ?_, fun vs hvs => ?_⟩
            · simp [Row.addError]
            · injection he2 with h3
              subst h3
              simp [Row.addError]
            · exact absurd hvs (by simp)
          | ok vulns =>
            refine ⟨?_, fun e2 he2 => ?_, fun vs hvs => ?_⟩
            · simp
            · exact absurd he2 (by simp)
            · injection hvs with h3
              subst h3
              simp
        · exact absurd h (by simp)
      · exact absurd h (by simp)

/-- Witness for scanModule_appended_row at the concrete success scenario. -/
theorem scanModule_appended_row_witness :
    (¬ (rowNoVulns.errorField ≠ none ∧ rowNoVulns.vulns ≠ [])) ∧
    (∀ e, ioOk.scanResult = Except.error e →
      rowNoVulns.errorField = some e ∧ rowNoVulns.vulns = []) ∧
    (∀ vs, ioOk.scanResult = Except.ok vs →
      rowNoVulns.errorField = none ∧ rowNoVulns.vulns = vs) :=
  scanModule_appended_row sreqA ioOk rowNoVulns (by decide)

/-! ## C2: the active-scan counter -/

theorem scanTrace_final {p i : Nat} {t : List Eff} (h : ScanTrace p i t) :
    finalCounter (i : Int) t = 0 := by
  induction h with
  | done => rfl
  | start h2 ih =>
    show finalCounter ((_ : Nat) + 1 : Int) _ = 0
    rw [show ((_ : Nat) + 1 : Int) = _ from rfl]
    simpa [finalCounter, Int.natCast_add] using ih
  | finish h2 ih =>
    show finalCounter (((_ : Nat) + 1 : Nat) - 1 : Int) _ = 0
    simpa [finalCounter, Int.natCast_add] using ih

theorem scanTrace_nonneg {p i : Nat} {t : List Eff} (h : ScanTrace p i t) :
    ∀ x ∈ counterRun (i : Int) t, 0 ≤ x.2 := by
  induction h with
  | done => intro x hx; exact absurd hx (by simp [counterRun])
  | start h2 ih =>
    intro x hx
    rcases List.mem_cons.mp hx with rfl | hx2
    · dsimp only
      omega
    · exact ih x (by simpa [Int.natCast_add] using hx2)
  | finish h2 ih =>
    intro x hx
    rcases List.mem_cons.mp hx with rfl | hx2
    · show (0 : Int) ≤ ((_ : Nat) + 1 : Int) - 1
      simp
    · refine ih x ?_
      have : ((i + 1 : Nat) : Int) - 1 = (i : Int) := by push_cast; ring
      simpa [this] using hx2

theorem scanTrace_count_inc {p i : Nat} {t : List Eff} (h : ScanTrace p i t) :
    t.count Eff.incEff = p := by
  induction h with
  | done => rfl
  | start h2 ih => simp [List.count_cons, ih]
  | finish h2 ih => simp [List.count_cons, ih]

theorem scanTrace_count_dec {p i : Nat} {t : List Eff} (h : ScanTrace p i t) :
    t.count Eff.decEff = p + i := by
  induction h with
  | done => rfl
  | start h2 ih => simp [List.count_cons, ih]; omega
  | finish h2 ih => simp [List.count_cons, ih]; omega

theorem cleanCount_eq_run (t : List Eff) : ∀ c : Int,
    cleanCount c t = (counterRun c t).count (Eff.decEff, 0) := by
  induction t with
  | nil => intro c; rfl
  | cons e t2 ih =>
    intro c
    cases e with
    | incEff => simp [cleanCount, counterRun, List.count_cons, ih]
    | decEff =>
      by_cases hc : c - 1 = 0
      · simp [cleanCount, counterRun, List.count_cons, ih, hc]
        omega
      · simp [cleanCount, counterRun, List.count_cons, ih, hc]

/-- C2: the active-scan counter is incremented exactly once on entry and
decremented exactly once on every exit path of doScan and runScanModule
(normal, error and panic alike, the recover turning the panic into an error);
hence over every interleaving of concurrently running scans the counter never
goes negative, returns to zero once all in-flight scans complete, and
cleanGoCaches runs exactly at the decrements that bring the counter to
zero. -/
theorem activeScans_counter_invariant :
    (∀ o : FOutcome, doScanEffects o = [Eff.incEff, Eff.decEff]) ∧
    (∀ fErr, doScanResult FOutcome.panicked fErr = some DErr.panicErr) ∧
    (∀ (n : Nat) (t : List Eff), ScanTrace n 0 t →
      t.count Eff.incEff = n ∧ t.count Eff.decEff = n ∧
      (∀ x ∈ counterRun 0 t, 0 ≤ x.2) ∧
      finalCounter 0 t = 0 ∧
      cleanCount 0 t = (counterRun 0 t).count (Eff.decEff, 0)) := by
  refine ⟨fun o => rfl, fun fErr => rfl, fun n t h => ?_⟩
  refine ⟨scanTrace_count_inc h, by simpa using scanTrace_count_dec h,
    ?_, ?_, cleanCount_eq_run t 0⟩
  · simpa using scanTrace_nonneg h
  · simpa using scanTrace_final h

/-- Witness for activeScans_counter_invariant: two overlapping scans, both
incrementing before either decrements; the counter stays non-negative, ends
at zero, and exactly the second decrement (which reaches zero) cleans. -/
theorem activeScans_counter_invariant_witness :
    [Eff.incEff, Eff.incEff, Eff.decEff, Eff.decEff].count Eff.incEff = 2 ∧
    [Eff.incEff, Eff.incEff, Eff.decEff, Eff.decEff].count Eff.decEff = 2 ∧
    (∀ x ∈ counterRun 0 [Eff.incEff, Eff.incEff, Eff.decEff, Eff.decEff],
      0 ≤ x.2) ∧
    finalCounter 0 [Eff.incEff, Eff.incEff, Eff.decEff, Eff.decEff] = 0 ∧
    cleanCount 0 [Eff.incEff, Eff.incEff, Eff.decEff, Eff.decEff] =
      (counterRun 0 [Eff.incEff, Eff.incEff, Eff.decEff, Eff.decEff]).count
        (Eff.decEff, 0) :=
  activeScans_counter_invariant.2.2 2
    [Eff.incEff, Eff.incEff, Eff.decEff, Eff.decEff]
    (ScanTrace.start (ScanTrace.start (ScanTrace.finish
      (ScanTrace.finish ScanTrace.done))))

/-! ## C4: runWithMemoryMonitor -/

theorem le_foldl_max (l : List Nat) : ∀ a : Nat, a ≤ l.foldl max a := by
  induction l with
  | nil => intro a; exact Nat.le_refl a
  | cons b t ih =>
    intro a
    exact Nat.le_trans (Nat.le_max_left a b) (ih (max a b))

theorem mem_le_foldl_max (l : List Nat) : ∀ a : Nat, ∀ x ∈ l, x ≤ l.foldl max a := by
  induction l with
  | nil => intro a x hx; exact absurd hx (by simp)
  | cons b t ih =>
    intro a x hx
    rcases List.mem_cons.mp hx with rfl | hx2
    · exact Nat.le_trans (Nat.le_max_right a x) (le_foldl_max t (max a x))
    · exact ih (max a b) x hx2

theorem foldl_max_mem (l : List Nat) : ∀ a : Nat,
    l.foldl max a = a ∨ l.foldl max a ∈ l := by
  induction l with
  | nil => intro a; exact Or.inl rfl
  | cons b t ih =>
    intro a
    rcases ih (max a b) with h | h
    · rcases max_choice a b with h2 | h2
      · exact Or.inl (by rw [List.foldl_cons, h, h2])
      · refine Or.inr ?_
        rw [List.foldl_cons, h, h2]
        exact List.mem_cons_self b t
    · exact Or.inr (List.mem_cons_of_mem b (by rw [List.foldl_cons]; exact h))

theorem runWithMemoryMonitor_peak (run : MonitorRun) :
    (runWithMemoryMonitor run).2 = peakSample run.samples := by
  unfold runWithMemoryMonitor
  dsimp only
  split <;> rfl

/-- The parent-canceled scenario: no positive limit is configured and no heap
sample was taken, yet the surrounding context is canceled before f finishes. -/
def runParentCanceled : MonitorRun :=
  { limit := 0, samples := [], parentCanceled := true,
    fRes := Except.ok { vulns := [] }, fWinsRace := false }

/-- Refutes C4 at a concrete input: runWithMemoryMonitor returns
MEMORY_LIMIT_EXCEEDED although the limit is zero and no sample exceeded it —
the derived context was canceled by the surrounding context, not by the
monitor, so the claimed "if and only if" fails. -/
theorem runWithMemoryMonitor_iff_cex :
    (runWithMemoryMonitor runParentCanceled).1 =
      Except.error DErr.memLimitExceeded ∧
    monitorTrips runParentCanceled.limit runParentCanceled.samples = false ∧
    runParentCanceled.limit = 0 :=
  ⟨rfl, rfl, rfl⟩

/-- C4 amended: runWithMemoryMonitor returns MEMORY_LIMIT_EXCEEDED exactly
when the derived context is canceled — because the limit is positive and a
heap sample exceeded it, or because the surrounding context was canceled —
and that cancellation wins the select race against the completion of f;
otherwise it returns the result of f; in every case the returned peak memory
is the maximum sample observed (zero when there are no samples). -/
theorem runWithMemoryMonitor_characterization (run : MonitorRun) :
    (((monitorTrips run.limit run.samples || run.parentCanceled) &&
        !run.fWinsRace) = true →
      (runWithMemoryMonitor run).1 = Except.error DErr.memLimitExceeded) ∧
    (((monitorTrips run.limit run.samples || run.parentCanceled) &&
        !run.fWinsRace) = false →
      (runWithMemoryMonitor run).1 = run.fRes) ∧
    (monitorTrips run.limit run.samples = true ↔
      0 < run.limit ∧ ∃ x ∈ run.samples, run.limit < x) ∧
    (∀ x ∈ run.samples, x ≤ (runWithMemoryMonitor run).2) ∧
    ((runWithMemoryMonitor run).2 = 0 ∨
      (runWithMemoryMonitor run).2 ∈ run.samples) := by
  refine ⟨fun hd => ?_, fun hd => ?_, ?_, ?_, ?_⟩
  · unfold runWithMemoryMonitor
    dsimp only
    rw [hd]
    rfl
  · unfold runWithMemoryMonitor
    dsimp only
    rw [hd]
    rfl
  · simp [monitorTrips]
  · intro x hx
    rw [runWithMemoryMonitor_peak]
    exact mem_le_foldl_max run.samples 0 x hx
  · rw [runWithMemoryMonitor_peak]
    exact foldl_max_mem run.samples 0

/-- The tripped-monitor scenario: a 4-byte limit with a 5-byte sample. -/
def runTripped : MonitorRun :=
  { limit := 4, samples := [5, 3], parentCanceled := false,
    fRes := Except.ok { vulns := [] }, fWinsRace := false }

/-- Witness for runWithMemoryMonitor_characterization: the tripped scenario
returns MEMORY_LIMIT_EXCEEDED, its peak dominates the sample 3, and the
parent-canceled scenario with a winning f returns the result of f. -/
theorem runWithMemoryMonitor_characterization_witness :
    (runWithMemoryMonitor runTripped).1 =
      Except.error DErr.memLimitExceeded ∧
    (3 : Nat) ≤ (runWithMemoryMonitor runTripped).2 ∧
    (runWithMemoryMonitor runParentCanceled).1 =
      Except.error DErr.memLimitExceeded :=
  ⟨(runWithMemoryMonitor_characterization runTripped).1 (by decide),
   (runWithMemoryMonitor_characterization runTripped).2.2.2.1 3 (by decide),
   (runWithMemoryMonitor_characterization runParentCanceled).1 (by decide)⟩

/-! ## C8: the task URL under disable_proxy_fetch -/

/-- The URL the planner generates at the inputs of TestNewTaskRequest with
DisableProxyFetch set. -/
def urlProxyFetchOff : String :=
  newTaskRequestURL "http://1.2.3.4:8000" "test" "mod" "v1.2.3" 0 "test" true true

/-- Refutes C8 at the concrete input pinned by TestNewTaskRequest: with
DisableProxyFetch the URL keeps importedby, mode and insecure and gains a
second question mark, so under first-question-mark parsing its parameters are
not the single parameter proxyfetch=off. -/
theorem newTaskRequest_proxyfetch_cex :
    urlProxyFetchOff =
      "http://1.2.3.4:8000/test/scan/mod/@v/v1.2.3?importedby=0&mode=test&insecure=true?proxyfetch=off" ∧
    queryParams urlProxyFetchOff =
      ["importedby=0", "mode=test", "insecure=true?proxyfetch=off"] ∧
    queryParams urlProxyFetchOff ≠ ["proxyfetch=off"] := by
  refine ⟨by decide, by decide, by decide⟩

/-- C8 amended: with disable_proxy_fetch set the task URL is the normal
already-parameterized URL with the literal string "?proxyfetch=off" appended;
the earlier query parameters (importedby, mode, insecure) remain in the URL,
so proxyfetch=off is not its only query parameter. -/
theorem newTaskRequestURL_appends (queueURL ns modPath ver : String)
    (ib : Nat) (mode : String) (insecure : Bool) :
    newTaskRequestURL queueURL ns modPath ver ib mode insecure true =
      newTaskRequestURL queueURL ns modPath ver ib mode insecure false ++
        "?proxyfetch=off" ∧
    "importedby=0" ∈ queryParams urlProxyFetchOff ∧
    "mode=test" ∈ queryParams urlProxyFetchOff ∧
    queryParams urlProxyFetchOff ≠ ["proxyfetch=off"] := by
  refine ⟨?_, by decide, by decide, by decide⟩
  show scanTaskBaseURL queueURL ns modPath ver ib mode insecure ++
      "?proxyfetch=off" =
    scanTaskBaseURL queueURL ns modPath ver ib mode insecure ++ "" ++
      "?proxyfetch=off"
  rw [String.append_empty]

/-! ## C9: createVulncheckQueueTasks -/

/-- The planner output for two source modes over a one-module population:
the same module and version occur once per mode. -/
def tasksTwoModes : List ScanRequest :=
  createVulncheckQueueTasks [ModeImports, ModeVTA] []
    [{ path := "example.com/m", version := "v1", importedBy := 0 }]

/-- Refutes C9 at a concrete input: with two modes over a one-module
population, createVulncheckQueueTasks emits two descriptors with the same
task-identifier key (module, version, suffix) — the task identifier does not
depend on the mode — so a descriptor whose task identifier duplicates one
already emitted is not dropped. -/
theorem createVulncheckQueueTasks_dedup_cex :
    tasksTwoModes.length = 2 ∧
    tasksTwoModes.map taskKey =
      [("example.com/m", "v1", ""), ("example.com/m", "v1", "")] ∧
    ¬ (tasksTwoModes.map taskKey).Nodup := by
  refine ⟨by decide, by decide, by decide⟩

/-- C9 amended: createVulncheckQueueTasks emits one task descriptor per
(request, mode) pair, skipping every request whose module path is "std", and
performs no deduplication: the output length is exactly the sum over modes of
the number of non-std requests for that mode, every non-std (module, mode)
pair is present, and duplicate task identifiers are all emitted (as the
counterexample shows). -/
theorem createVulncheckQueueTasks_spec (modes : List String)
    (binReqs : List ScanRequest) (modspecs : List ModSpec) :
    (∀ r ∈ createVulncheckQueueTasks modes binReqs modspecs,
      r.module ≠ "std") ∧
    (∀ mode ∈ modes, mode ≠ ModeBinary → ∀ m ∈ modspecs, m.path ≠ "std" →
      ({ module := m.path, version := m.version, suffix := "", mode := mode,
         importedBy := m.importedBy, insecure := false } : ScanRequest) ∈
        createVulncheckQueueTasks modes binReqs modspecs) ∧
    (∀ mode ∈ modes, mode = ModeBinary → ∀ r ∈ binReqs, r.module ≠ "std" →
      r ∈ createVulncheckQueueTasks modes binReqs modspecs) ∧
    ((createVulncheckQueueTasks modes binReqs modspecs).length =
      (modes.map (fun mode =>
        ((if mode == ModeBinary then binReqs
          else moduleSpecsToScanRequests modspecs mode).filter
          (fun r => r.module != "std")).length)).sum) := by
  refine ⟨?_, ?_, ?_, ?_⟩
  · intro r hr
    unfold createVulncheckQueueTasks at hr
    rcases List.mem_flatten.mp hr with ⟨piece, hpiece, hrp⟩
    rcases List.mem_map.mp hpiece with ⟨mode, _, rfl⟩
    have := (List.mem_filter.mp hrp).2
    simpa using this
  · intro mode hmode hnb m hm hstd
    unfold createVulncheckQueueTasks
    refine List.mem_flatten.mpr ⟨_, List.mem_map.mpr ⟨mode, hmode, rfl⟩, ?_⟩
    rw [if_neg (by simpa using hnb)]
    refine List.mem_filter.mpr ⟨?_, by simpa using hstd⟩
    exact List.mem_map.mpr ⟨m, hm, rfl⟩
  · intro mode hmode hb r hr hstd
    unfold createVulncheckQueueTasks
    refine List.mem_flatten.mpr ⟨_, List.mem_map.mpr ⟨mode, hmode, rfl⟩, ?_⟩
    rw [if_pos (by simpa using hb)]
    exact List.mem_filter.mpr ⟨hr, by simpa using hstd⟩
  · unfold createVulncheckQueueTasks
    rw [List.length_flatten, List.map_map]
    rfl

/-- Witness for createVulncheckQueueTasks_spec: the IMPORTS descriptor of the
two-mode scenario is emitted. -/
theorem createVulncheckQueueTasks_spec_witness :
    ({ module := "example.com/m", version := "v1", suffix := "",
       mode := "IMPORTS", importedBy := 0, insecure := false } : ScanRequest) ∈
      createVulncheckQueueTasks [ModeImports, ModeVTA] []
        [{ path := "example.com/m", version := "v1", importedBy := 0 }] :=
  (createVulncheckQueueTasks_spec [ModeImports, ModeVTA] []
      [{ path := "example.com/m", version := "v1", importedBy := 0 }]).2.1
    "IMPORTS" (by decide) (by decide)
    { path := "example.com/m", version := "v1", importedBy := 0 }
    (by decide) (by decide)
